import Mathlib

/-!
# GenXBot CLI supervisor — verification development

Shallow embedding of the GenXBot command-line supervisor
(`cli/bin/genxbot.js`): the environment-file store (`parseEnv`,
`renderEnv`, `validateEnv`, `maskToken`), the HTTP probe
(`probeHttp`), the daemon lifecycle operations (`startDaemon`,
`stopDaemon`, `daemonStatus`, `uninstallCli`), the persisted-record
writer (`writeJsonFile` / `readJsonFile`) and the `doctor` check
battery.

Modelling conventions:
* JavaScript strings are `List Char` (`JStr`); the whitespace set of
  `String.prototype.trim` is modelled as space, tab, CR, LF (the
  characters that occur in environment files).
* A file's textual content is modelled as the list of its lines
  (the split on `\r?\n` performed by `parseEnv` and the join on
  `\n` performed by `renderEnv` are absorbed into this
  representation; rendered values are therefore taken newline-free).
* A JavaScript object used as a string map is an association list;
  assignment is modelled by `envSet`, which makes the new binding
  shadow any previous binding of the same key.
* Timestamps (`new Date().toISOString()`) are abstract `Nat` clock
  values; process aliveness is an oracle `alive : Nat → Bool` indexed
  by the successive `isProcessAlive` observations an operation makes;
  `process.kill` outcomes are oracle booleans.
* Side effects (spawns, signals, file writes) are recorded in the
  result structures instead of performed, so each operation is a pure
  function of its inputs and the oracle environment.
-/

namespace GenXBot

/-- JavaScript string, modelled as a list of characters. -/
abbrev JStr := List Char

/-- Whitespace predicate used by the model of `String.prototype.trim`. -/
def isWS (c : Char) : Bool :=
  c = ' ' || c = '\t' || c = '\n' || c = '\r'

/-- Left trim: drop leading whitespace. -/
def ltrim (s : JStr) : JStr := s.dropWhile isWS

/-- Right trim: drop trailing whitespace. -/
def rtrim (s : JStr) : JStr := (s.reverse.dropWhile isWS).reverse

/-- Model of JavaScript `s.trim()`: drop whitespace at both ends. -/
def jsTrim (s : JStr) : JStr := ltrim (rtrim s)

/-- Model of JavaScript `s.toLowerCase()` (ASCII). -/
def jsToLower (s : JStr) : JStr := s.map Char.toLower

/-- Index of the first `=` in a string (`s.indexOf("=")`), `none` when
absent (the source uses the sentinel `-1`). -/
def firstEq : JStr → Option Nat
  | [] => none
  | c :: rest => if c = '=' then some 0 else (firstEq rest).map (· + 1)

/-- A JavaScript object holding environment key/value pairs. -/
abbrev EnvMap := List (JStr × JStr)

/-- Property read `values[key]`: the most recent binding wins. -/
def envGet : EnvMap → JStr → Option JStr
  | [], _ => none
  | (k', v) :: rest, k => if k' = k then some v else envGet rest k

/-- Property write `values[key] = value`: the new binding shadows any
previous binding of the same key. -/
def envSet (m : EnvMap) (k v : JStr) : EnvMap :=
  (k, v) :: m.filter (fun p => decide (p.1 ≠ k))

/-- Model of the JavaScript `??` operator (`values.K ?? d`): only a
missing binding falls back to the default. -/
def defaultStr (o : Option JStr) (d : JStr) : JStr := o.getD d

/-- Model of the JavaScript `||` operator on strings
(`values.K || d`): a missing binding or the empty string (falsy)
falls back to the default. -/
def jsOrElse (o : Option JStr) (d : JStr) : JStr :=
  match o with
  | some v => if v = [] then d else v
  | none => d

/-- One iteration of the `parseEnv` loop (source `parseEnv`, lines
227–239): trim the raw line, skip blank and `#`-comment lines, split
at the first `=` (skipping lines where it is absent or at index 0)
and record the trimmed key and value. -/
def parseEnvLine (values : EnvMap) (rawLine : JStr) : EnvMap :=
  let line := jsTrim rawLine
  if line = [] then values
  else if line.head? = some '#' then values
  else
    match firstEq line with
    | none => values
    | some idx =>
      if idx = 0 then values
      else envSet values (jsTrim (line.take idx)) (jsTrim (line.drop (idx + 1)))

/-- Source `parseEnv`: fold the line parser over the file content. -/
def parseEnv (content : List JStr) : EnvMap :=
  content.foldl parseEnvLine []

def KEY_OPENAI : JStr := "OPENAI_API_KEY".data

def KEY_ADMIN : JStr := "ADMIN_API_TOKEN".data

def KEY_MODE : JStr := "AGENT_RUNTIME_MODE".data

def KEY_WEBHOOK : JStr := "CHANNEL_WEBHOOK_SECURITY_ENABLED".data

/-- The four keys the environment template knows about. -/
def knownKeys : List JStr := [KEY_OPENAI, KEY_ADMIN, KEY_MODE, KEY_WEBHOOK]

/-- Source `renderEnv` (lines 241–250): a fixed template of one header
comment, the four known keys (with `??`-defaults) and a trailing blank
line. -/
def renderEnv (values : EnvMap) : List JStr :=
  [ "# GenXBot global environment".data,
    "OPENAI_API_KEY=".data ++ defaultStr (envGet values KEY_OPENAI) [],
    "ADMIN_API_TOKEN=".data ++ defaultStr (envGet values KEY_ADMIN) [],
    "AGENT_RUNTIME_MODE=".data ++ defaultStr (envGet values KEY_MODE) "single".data,
    "CHANNEL_WEBHOOK_SECURITY_ENABLED=".data
      ++ defaultStr (envGet values KEY_WEBHOOK) "false".data,
    [] ]

/-- The closed set of runtime modes accepted by `validateEnv`. -/
def runtimeModes : List JStr := ["single".data, "multi".data, "hybrid".data]

/-- The error message `validateEnv` produces for an out-of-set mode. -/
def ERR_MODE : JStr :=
  "AGENT_RUNTIME_MODE must be one of: single, multi, hybrid".data

def WARN_OPENAI : JStr :=
  "OPENAI_API_KEY is missing. GenXBot will run deterministic fallback mode.".data

def WARN_ADMIN : JStr :=
  "ADMIN_API_TOKEN is empty. Admin endpoint protection may be limited.".data

structure EnvValidation where
  warnings : List JStr
  errors : List JStr
  deriving DecidableEq

/-- Source `validateEnv` (lines 264–284). Note the `||` fallback: an
empty (or whitespace-only, after trim) mode is falsy and produces no
error. -/
def validateEnv (values : EnvMap) : EnvValidation :=
  let mode := jsToLower (jsTrim (jsOrElse (envGet values KEY_MODE) "single".data))
  let errors := if (mode ≠ [] ∧ ¬ (mode ∈ runtimeModes)) then [ERR_MODE] else []
  let apiKey := jsTrim (jsOrElse (envGet values KEY_OPENAI) [])
  let w1 : List JStr := if apiKey = [] then [WARN_OPENAI] else []
  let adminToken := jsTrim (jsOrElse (envGet values KEY_ADMIN) [])
  let w2 : List JStr := if adminToken = [] then [WARN_ADMIN] else []
  ⟨w1 ++ w2, errors⟩

/-- Source `maskToken` (lines 286–291). -/
def maskToken (value : JStr) : JStr :=
  let trimmed := jsTrim value
  if trimmed = [] then "(empty)".data
  else if trimmed.length ≤ 8 then "****".data
  else trimmed.take 4 ++ "...".data ++ trimmed.drop (trimmed.length - 4)

/-- The in-place rewrite `onboard` performs on the loaded environment
values before writing the file (source lines 953–960): lower-case and
trim the mode, replace an out-of-set mode by `single`, and normalise
the webhook flag to `true`/`false`. -/
def onboardCoerce (values : EnvMap) : EnvMap :=
  let mode := jsToLower (jsTrim (jsOrElse (envGet values KEY_MODE) "single".data))
  let modeFixed := if mode ∈ runtimeModes then mode else "single".data
  let values1 := envSet values KEY_MODE modeFixed
  let web :=
    if jsToLower (jsTrim (jsOrElse (envGet values KEY_WEBHOOK) "false".data))
        = "true".data
    then "true".data else "false".data
  envSet values1 KEY_WEBHOOK web

/-! ## HTTP probe (source `probeHttp`, lines 813–825) -/

/-- What the network does for one `http.get`: a response with some
status code, a connection error, or a timeout. -/
inductive HttpOutcome where
  | response (statusCode : Nat)
  | connError (message : JStr)
  | timeout
  deriving DecidableEq

structure ProbeResult where
  ok : Bool
  statusCode : Option Nat
  error : Option JStr
  deriving DecidableEq

/-- Source `probeHttp`: on a response, `ok` is `statusCode >= 200 &&
statusCode < 500` and the status code is recorded; on a connection
error the message is recorded; on a timeout the literal
`"timeout"`. -/
def probeHttp : HttpOutcome → ProbeResult
  | HttpOutcome.response sc => ⟨decide (200 ≤ sc ∧ sc < 500), some sc, none⟩
  | HttpOutcome.connError m => ⟨false, none, some m⟩
  | HttpOutcome.timeout => ⟨false, none, some "timeout".data⟩

/-! ## Daemon lifecycle model

`daemon.meta.json` is the persisted ProcessRecord; the fields that
drive control flow (`pid`) and the reconciliation timestamps are
modelled, path-valued bookkeeping fields are not (they never influence
a branch relevant to the claims). -/

structure DaemonMeta where
  manager : JStr
  pid : Option Nat
  startedAt : Option Nat
  stoppedAt : Option Nat
  deriving DecidableEq

/-- Oracle environment for one CLI invocation: the OS aliveness answer
for each successive `isProcessAlive` observation, the outcome of a
`SIGKILL` attempt, the network outcome of the snapshot probe, which
python command resolves, the pid a spawn would produce, and the clock. -/
structure SysEnv where
  alive : Nat → Bool
  sigkillOk : Bool
  probe : HttpOutcome
  pythonCmd : Option JStr
  childPid : Nat
  now : Nat

/-- Source `isProcessAlive`: a missing or non-positive pid is dead;
otherwise the OS oracle answers. -/
def pidAliveCheck (pid : Option Nat) (aliveBit : Bool) : Bool :=
  match pid with
  | none => false
  | some p => decide (0 < p) && aliveBit

/-- The health snapshot document (source `writeHealthSnapshot`,
lines 150–174): daemon pid and its liveness, API reachability from
`probeHttp`, the event tag, and the `forced` flag passed on the stop
path. -/
structure HealthSnapshot where
  pid : Option Nat
  pidAlive : Bool
  reachable : Bool
  statusCode : Option Nat
  errorMsg : Option JStr
  event : JStr
  forced : Option Bool
  deriving DecidableEq

/-- Source `writeHealthSnapshot`: re-read the (possibly just rewritten)
meta record, observe pid liveness, probe the backend API, and write the
snapshot document. -/
def mkSnapshot (meta : DaemonMeta) (aliveBit : Bool) (probe : HttpOutcome)
    (event : JStr) (forced : Option Bool) : HealthSnapshot :=
  let pr := probeHttp probe
  ⟨meta.pid, pidAliveCheck meta.pid aliveBit, pr.ok, pr.statusCode, pr.error,
    event, forced⟩

/-- Signals the stop path may attempt. -/
inductive SigKind where
  | term
  | kill
  deriving DecidableEq

/-- The graceful-stop polling loop (source lines 630–636): up to
`budget` liveness checks at observation indices `idx, idx+1, …`; a dead
answer stops the loop, a live answer costs one 200 ms sleep. Returns
(found dead, number of sleeps). -/
def stopPoll (pidAlive : Nat → Bool) : Nat → Nat → Bool × Nat
  | 0, _ => (false, 0)
  | b + 1, idx =>
    if pidAlive idx = false then (true, 0)
    else
      let r := stopPoll pidAlive b (idx + 1)
      (r.1, r.2 + 1)

/-- Result of `stopDaemon`: the boolean it returns, the signals it
attempted in order, the 200 ms sleeps it performed, the meta record it
rewrote (if any), and the health snapshot it wrote. -/
structure StopResult where
  success : Bool
  signals : List SigKind
  sleeps : List Nat
  metaWrite : Option DaemonMeta
  snapshot : HealthSnapshot
  deriving DecidableEq

/-- Source `stopDaemon` (lines 602–662). Aliveness observation
indices: 0 for the initial staleness check, 1–15 inside the polling
loop, 16 for the re-check guarding escalation, 17 inside the final
snapshot's own `isProcessAlive` (the snapshot liveness only matters on
paths where the on-disk pid is still set). A falsy recorded pid
(absent or 0) is the "no metadata" path. -/
def stopDaemon (meta : DaemonMeta) (env : SysEnv) : StopResult :=
  match meta.pid with
  | none =>
    ⟨true, [], [], none,
      mkSnapshot meta (env.alive 1) env.probe "stop_no_metadata".data none⟩
  | some p =>
    if p = 0 then
      ⟨true, [], [], none,
        mkSnapshot meta (env.alive 1) env.probe "stop_no_metadata".data none⟩
    else if pidAliveCheck meta.pid (env.alive 0) = false then
      let cleaned : DaemonMeta :=
        ⟨meta.manager, none, meta.startedAt, some env.now⟩
      ⟨true, [], [], some cleaned,
        mkSnapshot cleaned (env.alive 1) env.probe "stop_clean_stale_pid".data none⟩
    else
      let pa : Nat → Bool := fun k => pidAliveCheck meta.pid (env.alive k)
      let poll := stopPoll pa 15 1
      if poll.1 then
        let cleaned : DaemonMeta :=
          ⟨meta.manager, none, meta.startedAt, some env.now⟩
        ⟨true, [SigKind.term], List.replicate poll.2 200, some cleaned,
          mkSnapshot cleaned (env.alive 17) env.probe "stop".data (some false)⟩
      else if pa 16 then
        if env.sigkillOk then
          let cleaned : DaemonMeta :=
            ⟨meta.manager, none, meta.startedAt, some env.now⟩
          ⟨true, [SigKind.term, SigKind.kill], List.replicate poll.2 200,
            some cleaned,
            mkSnapshot cleaned (env.alive 17) env.probe "stop".data (some true)⟩
        else
          ⟨false, [SigKind.term, SigKind.kill], List.replicate poll.2 200, none,
            mkSnapshot meta (env.alive 17) env.probe "stop_failed".data none⟩
      else
        ⟨false, [SigKind.term], List.replicate poll.2 200, none,
          mkSnapshot meta (env.alive 17) env.probe "stop_failed".data none⟩

/-- The CLI dispatch for `stop` (source lines 1037–1040):
`process.exit(stopped ? 0 : 1)`. -/
def stopExitCode (meta : DaemonMeta) (env : SysEnv) : Nat :=
  if (stopDaemon meta env).success then 0 else 1

/-- Result of `daemonStatus`: the derived composite view, the meta
record it rewrote (if any), and the snapshot it wrote. -/
structure StatusResult where
  running : Bool
  pidView : Option Nat
  metaWrite : Option DaemonMeta
  snapshot : HealthSnapshot
  deriving DecidableEq

/-- Source `daemonStatus` (lines 664–704): derive `running` from a
fresh liveness observation, refresh the health snapshot, and report
`pid` as `null` when not running. The source never calls
`writeDaemonMeta` here, so the record write is `none`. -/
def daemonStatus (meta : DaemonMeta) (env : SysEnv) : StatusResult :=
  let running := pidAliveCheck meta.pid (env.alive 0)
  let snap := mkSnapshot meta (env.alive 1) env.probe "status".data none
  ⟨running, if running then meta.pid else none, none, snap⟩

/-- Result of `startDaemon`: whether the already-running no-op path was
taken, the spawned child pid (if any), the meta record written (if
any), the snapshot written (if any), and a `process.exit` code taken
early (python missing). -/
structure StartResult where
  alreadyRunning : Bool
  spawned : Option Nat
  metaWrite : Option DaemonMeta
  snapshot : Option HealthSnapshot
  exitCode : Option Nat
  deriving DecidableEq

/-- Source `startDaemon` (lines 544–600): if the recorded pid is
alive, log, refresh the snapshot with event
`start_skipped_already_running` and return without spawning or
rewriting the record; otherwise resolve python (exit 1 when missing),
spawn detached, persist the new record and a `start` snapshot. -/
def startDaemon (meta : DaemonMeta) (env : SysEnv) : StartResult :=
  if pidAliveCheck meta.pid (env.alive 0) then
    ⟨true, none, none,
      some (mkSnapshot meta (env.alive 1) env.probe
        "start_skipped_already_running".data none),
      none⟩
  else
    match env.pythonCmd with
    | none => ⟨false, none, none, none, some 1⟩
    | some _ =>
      let started : DaemonMeta :=
        ⟨"cli".data, some env.childPid, some env.now, none⟩
      ⟨false, some env.childPid, some started,
        some (mkSnapshot started (env.alive 1) env.probe "start".data none),
        none⟩

/-! ## Persisted-document writes (source `readJsonFile` /
`writeJsonFile`, lines 55–67) -/

/-- Filesystem operations a write can perform. -/
inductive FsOp where
  | mkdirRec (dir : JStr)
  | writeFile (path : JStr) (content : JStr)
  | rename (src : JStr) (dst : JStr)
  deriving DecidableEq

/-- Model of `path.dirname`: everything before the last `/`. -/
def dirname (p : JStr) : JStr :=
  let r := p.reverse.dropWhile (fun c => !(c = '/'))
  match r with
  | [] => ['.']
  | _ :: rest => if rest = [] then ['/'] else rest.reverse

/-- Source `writeJsonFile`: `ensureDir(path.dirname(filePath))`
followed by a single direct `fs.writeFileSync(filePath, …)` — the
trace of filesystem operations it performs. -/
def writeJsonFile (filePath : JStr) (content : JStr) : List FsOp :=
  [FsOp.mkdirRec (dirname filePath), FsOp.writeFile filePath content]

/-- Does this operation rename something onto `dst`? -/
def renamesTo (dst : JStr) : FsOp → Bool
  | FsOp.rename _ d => decide (d = dst)
  | _ => false

/-- Does this operation write directly to `dst`? -/
def writesTo (dst : JStr) : FsOp → Bool
  | FsOp.writeFile p _ => decide (p = dst)
  | _ => false

/-- Modelled from the spec words (the source has no such mechanism):
a trace updates `dst` by the write-to-temp-then-rename pattern when it
renames something onto `dst` and never writes `dst` directly. -/
def atomicTempRename (ops : List FsOp) (dst : JStr) : Bool :=
  ops.any (renamesTo dst) && !(ops.any (writesTo dst))

/-- On-disk state of a JSON document as seen by `readJsonFile`:
missing, present but unparsable, or valid. -/
inductive FileState (α : Type) where
  | missing
  | corrupt
  | valid (v : α)

/-- Source `readJsonFile`: a missing file or a JSON parse failure
degrades to the fallback. -/
def readJsonFile {α : Type} (st : FileState α) (fallback : α) : α :=
  match st with
  | FileState.missing => fallback
  | FileState.corrupt => fallback
  | FileState.valid v => v

/-! ## Uninstall (source `uninstallCli`, lines 762–800) -/

/-- Externally visible side effects of `uninstallCli`. -/
inductive Effect where
  | sendSignal (s : SigKind) (pid : Nat)
  | fsRemove (path : JStr)
  | writeMeta (m : DaemonMeta)
  | writeSnapshot (s : HealthSnapshot)
  | spawnCmd (cmd : JStr)
  deriving DecidableEq

structure UninstallResult where
  exitCode : Option Nat
  effects : List Effect
  deriving DecidableEq

def APP_HOME_PATH : JStr := "~/.genxbot".data

def PLIST_PATH : JStr :=
  "~/Library/LaunchAgents/com.genxai.genxbot.plist".data

def SYSTEMD_PATH : JStr := "~/.config/systemd/user/genxbot.service".data

/-- The effects a silent `stopDaemon` call contributes to
`uninstallCli`. -/
def stopResultEffects (meta : DaemonMeta) (r : StopResult) : List Effect :=
  (match meta.pid with
   | some p => r.signals.map (fun s => Effect.sendSignal s p)
   | none => [])
  ++ (match r.metaWrite with
      | some m => [Effect.writeMeta m]
      | none => [])
  ++ [Effect.writeSnapshot r.snapshot]

/-- Source `uninstallCli`: without `--yes` it prints a hint and calls
`process.exit(1)` before any side effect; with `--yes` it stops the
daemon silently, removes the platform service registration, rewrites
the meta record with the pid cleared, and deletes the per-user
directory tree. -/
def uninstallCli (yes : Bool) (meta : DaemonMeta) (env : SysEnv)
    (platform : JStr) (plistExists svcExists appHomeExists : Bool) :
    UninstallResult :=
  if yes = false then ⟨some 1, []⟩
  else
    let sr := stopDaemon meta env
    let metaAfterStop := sr.metaWrite.getD meta
    let platFx : List Effect :=
      if platform = "darwin".data then
        (if plistExists then
          [Effect.spawnCmd "launchctl unload".data, Effect.fsRemove PLIST_PATH]
         else [])
      else if platform = "linux".data then
        (if svcExists then
          [Effect.spawnCmd "systemctl --user disable --now".data,
           Effect.fsRemove SYSTEMD_PATH,
           Effect.spawnCmd "systemctl --user daemon-reload".data]
         else [])
      else []
    let metaFx : List Effect :=
      [Effect.writeMeta
        ⟨metaAfterStop.manager, none, metaAfterStop.startedAt,
          metaAfterStop.stoppedAt⟩]
    let rmFx : List Effect :=
      if appHomeExists then [Effect.fsRemove APP_HOME_PATH] else []
    ⟨none, stopResultEffects meta sr ++ platFx ++ metaFx ++ rmFx⟩

/-! ## Doctor (source `doctor`, lines 827–942) -/

inductive Level where
  | pass
  | warn
  | fail
  deriving DecidableEq

structure DoctorCheck where
  name : JStr
  level : Level
  detail : JStr
  deriving DecidableEq

/-- Host facts the doctor battery observes: tool version probe results
(`none` = probe failed), python import result, directory/file
existence, the loaded environment values, port availability, and the
API probe outcome. -/
structure DoctorEnv where
  nodeVersion : Option JStr
  npmVersion : Option JStr
  pyVersion : Option JStr
  pipVersion : Option JStr
  uvicornVersion : Option JStr
  fastapiImportOk : Bool
  backendDir : JStr
  frontendDir : JStr
  backendRequirementsExists : Bool
  frontendPackageJsonExists : Bool
  frontendNodeModulesExists : Bool
  appHomeExists : Bool
  logDirExists : Bool
  envFileExists : Bool
  envValues : EnvMap
  backendPortAvailable : Bool
  frontendPortAvailable : Bool
  apiProbe : HttpOutcome

/-- One entry of the `checks` array. -/
def mkCheck (name : JStr) (level : Level) (detail : JStr) : DoctorCheck :=
  ⟨name, level, detail⟩

/-- The `checks` array `doctor` builds, in source order: tool checks,
directory checks, config checks, the env-validation warnings then
errors, port checks, and the API probe. -/
def doctorChecks (env : DoctorEnv) : List DoctorCheck :=
  let vres := validateEnv env.envValues
  let apiRes := probeHttp env.apiProbe
  let openaiSet := jsTrim (jsOrElse (envGet env.envValues KEY_OPENAI) []) ≠ []
  let adminSet := jsTrim (jsOrElse (envGet env.envValues KEY_ADMIN) []) ≠ []
  [ mkCheck "node".data (if env.nodeVersion.isSome then Level.pass else Level.fail)
      (defaultStr env.nodeVersion "node not found".data),
    mkCheck "npm".data (if env.npmVersion.isSome then Level.pass else Level.fail)
      (defaultStr env.npmVersion "npm not found".data),
    mkCheck "python".data (if env.pyVersion.isSome then Level.pass else Level.fail)
      (defaultStr env.pyVersion "python3/python not found".data),
    mkCheck "pip".data (if env.pipVersion.isSome then Level.pass else Level.warn)
      (defaultStr env.pipVersion "pip3/pip not found".data),
    mkCheck "uvicorn".data
      (if env.uvicornVersion.isSome then Level.pass else Level.warn)
      (defaultStr env.uvicornVersion "uvicorn not found in PATH".data),
    mkCheck "python_fastapi".data
      (if env.fastapiImportOk then Level.pass else Level.warn)
      (if env.fastapiImportOk then "fastapi import ok".data
       else "fastapi import failed".data),
    mkCheck "backend_dir".data
      (if env.backendRequirementsExists then Level.pass else Level.fail)
      env.backendDir,
    mkCheck "frontend_dir".data
      (if env.frontendPackageJsonExists then Level.pass else Level.warn)
      env.frontendDir,
    mkCheck "backend_requirements".data
      (if env.backendRequirementsExists then Level.pass else Level.fail)
      (env.backendDir ++ "/requirements.txt".data),
    mkCheck "frontend_node_modules".data
      (if env.frontendNodeModulesExists then Level.pass else Level.warn)
      (if env.frontendNodeModulesExists then
        "frontend dependencies installed".data
       else "frontend dependencies missing".data),
    mkCheck "app_home".data
      (if env.appHomeExists then Level.pass else Level.warn) APP_HOME_PATH,
    mkCheck "log_dir".data
      (if env.logDirExists then Level.pass else Level.warn)
      (APP_HOME_PATH ++ "/logs".data),
    mkCheck "env_file".data
      (if env.envFileExists then Level.pass else Level.warn)
      (APP_HOME_PATH ++ "/.env".data),
    mkCheck "openai_token".data (if openaiSet then Level.pass else Level.warn)
      (if openaiSet then
        "configured (".data
          ++ maskToken (jsOrElse (envGet env.envValues KEY_OPENAI) []) ++ ")".data
       else "missing (deterministic fallback mode will be used)".data),
    mkCheck "admin_token".data (if adminSet then Level.pass else Level.warn)
      (if adminSet then
        "configured (".data
          ++ maskToken (jsOrElse (envGet env.envValues KEY_ADMIN) []) ++ ")".data
       else "missing (admin endpoint protection may be limited)".data) ]
  ++ vres.warnings.map (fun w => mkCheck "env_validation".data Level.warn w)
  ++ vres.errors.map (fun e => mkCheck "env_validation".data Level.fail e)
  ++ [ mkCheck "port_8000".data
        (if env.backendPortAvailable then Level.pass else Level.warn)
        (if env.backendPortAvailable then "port available".data
         else "port in use".data),
       mkCheck "port_5173".data
        (if env.frontendPortAvailable then Level.pass else Level.warn)
        (if env.frontendPortAvailable then "port available".data
         else "port in use".data),
       (if apiRes.ok then
          mkCheck "backend_api".data Level.pass "reachable".data
        else mkCheck "backend_api".data Level.warn "unreachable".data) ]

/-- The fail-severity count of the summary (source lines 923–927). -/
def doctorFailCount (env : DoctorEnv) : Nat :=
  (doctorChecks env).countP (fun c => decide (c.level = Level.fail))

/-- Process exit code of a `doctor` run: `doctor` exits 1 when the
summary has any FAIL (source lines 939–941); otherwise `main` exits 0
(source lines 1026–1030). -/
def doctorExitCode (env : DoctorEnv) : Nat :=
  if 0 < doctorFailCount env then 1 else 0

/-! ## Helper lemmas about the string model -/

theorem length_dropWhile_le (p : Char → Bool) (l : JStr) :
    (l.dropWhile p).length ≤ l.length := by
  induction l with
  | nil => simp
  | cons c t ih =>
    rw [List.dropWhile_cons]
    by_cases h : p c
    · simp only [h, if_true]
      exact Nat.le_trans ih (Nat.le_succ _)
    · simp [h]

theorem head_not_of_dropWhile_fix {p : Char → Bool} {c : Char} {t : JStr}
    (h : (c :: t).dropWhile p = c :: t) : p c = false := by
  by_cases hc : p c
  · rw [List.dropWhile_cons, if_pos hc] at h
    have hlen := length_dropWhile_le p t
    rw [h] at hlen
    simp at hlen
  · simpa using hc

theorem dropWhile_idem (p : Char → Bool) (l : JStr) :
    (l.dropWhile p).dropWhile p = l.dropWhile p := by
  induction l with
  | nil => simp
  | cons c t ih =>
    rw [List.dropWhile_cons]
    by_cases h : p c
    · simpa [h] using ih
    · simp [List.dropWhile_cons, h]

theorem dropWhile_append_cons (p : Char → Bool) (a : JStr) (c : Char)
    (r : JStr) (hc : p c = false) :
    (a ++ c :: r).dropWhile p = a.dropWhile p ++ c :: r := by
  induction a with
  | nil => simp [List.dropWhile_cons, hc]
  | cons d t ih =>
    rw [List.cons_append, List.dropWhile_cons, List.dropWhile_cons]
    by_cases h : p d
    · simpa [h] using ih
    · simp [h]

theorem rtrim_append_cons (a : JStr) (c : Char) (r : JStr)
    (hc : isWS c = false) : rtrim (a ++ c :: r) = a ++ c :: rtrim r := by
  unfold rtrim
  rw [List.reverse_append, List.reverse_cons, List.append_assoc,
    List.singleton_append, dropWhile_append_cons isWS r.reverse c a.reverse hc,
    List.reverse_append, List.reverse_cons, List.reverse_reverse,
    List.append_assoc, List.singleton_append]

theorem ltrim_cons_of_not_ws {c : Char} (t : JStr) (hc : isWS c = false) :
    ltrim (c :: t) = c :: t := by
  simp [ltrim, List.dropWhile_cons, hc]

theorem rtrim_idem (x : JStr) : rtrim (rtrim x) = rtrim x := by
  unfold rtrim
  rw [List.reverse_reverse, dropWhile_idem]

theorem jsTrim_rtrim (x : JStr) : jsTrim (rtrim x) = jsTrim x := by
  unfold jsTrim
  rw [rtrim_idem]

theorem firstEq_append_eq (k r : JStr) (h : ¬ '=' ∈ k) :
    firstEq (k ++ '=' :: r) = some k.length := by
  induction k with
  | nil => simp [firstEq]
  | cons c t ih =>
    have hc : ¬ c = '=' := by
      intro hceq
      exact h (by simp [hceq])
    have ht : ¬ '=' ∈ t := fun hmem => h (List.mem_cons_of_mem c hmem)
    rw [List.cons_append]
    simp only [firstEq, if_neg hc, ih ht]
    rfl

/-- The generic key/value line of the rendered template: parsing
`key=value` with a well-formed key records the key with the trimmed
value. -/
theorem parseEnvLine_keyline (m : EnvMap) (c : Char) (k x : JStr)
    (hcws : isWS c = false) (hch : ¬ c = '#')
    (hkeq : ¬ '=' ∈ (c :: k)) (hktrim : jsTrim (c :: k) = c :: k) :
    parseEnvLine m ((c :: k) ++ '=' :: x) = envSet m (c :: k) (jsTrim x) := by
  have heqws : isWS '=' = false := by decide
  have hline : jsTrim ((c :: k) ++ '=' :: x) = (c :: k) ++ '=' :: rtrim x := by
    unfold jsTrim
    rw [rtrim_append_cons (c :: k) '=' x heqws, List.cons_append]
    exact ltrim_cons_of_not_ws _ hcws
  have hne : (c :: k) ++ '=' :: rtrim x ≠ [] := by simp
  have hhead : ((c :: k) ++ '=' :: rtrim x).head? = some c := by
    rw [List.cons_append]
    rfl
  have hidx : firstEq ((c :: k) ++ '=' :: rtrim x) = some (c :: k).length :=
    firstEq_append_eq (c :: k) (rtrim x) hkeq
  have htake : ((c :: k) ++ '=' :: rtrim x).take (c :: k).length = c :: k :=
    List.take_left _ _
  have hdrop : ((c :: k) ++ '=' :: rtrim x).drop ((c :: k).length + 1)
      = rtrim x := by
    have hsplit : (c :: k) ++ '=' :: rtrim x
        = ((c :: k) ++ ['=']) ++ rtrim x := by
      rw [List.append_assoc, List.singleton_append]
    have hlen : ((c :: k) ++ ['=']).length = (c :: k).length + 1 := by
      simp
    rw [hsplit, ← hlen]
    exact List.drop_left _ _
  unfold parseEnvLine
  rw [hline]
  rw [if_neg hne]
  rw [hhead]
  have hch2 : ¬ (some c = some '#') := by
    intro hx
    exact hch (Option.some.inj hx)
  rw [if_neg hch2, hidx]
  have hpos : ¬ ((c :: k).length = 0) := by simp
  simp only [if_neg hpos, htake, hdrop, hktrim, jsTrim_rtrim]

theorem parseEnvLine_openai (m : EnvMap) (v : JStr) :
    parseEnvLine m ("OPENAI_API_KEY=".data ++ v)
      = envSet m KEY_OPENAI (jsTrim v) :=
  parseEnvLine_keyline m 'O' "PENAI_API_KEY".data v
    (by decide) (by decide) (by decide) (by decide)

theorem parseEnvLine_admin (m : EnvMap) (v : JStr) :
    parseEnvLine m ("ADMIN_API_TOKEN=".data ++ v)
      = envSet m KEY_ADMIN (jsTrim v) :=
  parseEnvLine_keyline m 'A' "DMIN_API_TOKEN".data v
    (by decide) (by decide) (by decide) (by decide)

theorem parseEnvLine_mode (m : EnvMap) (v : JStr) :
    parseEnvLine m ("AGENT_RUNTIME_MODE=".data ++ v)
      = envSet m KEY_MODE (jsTrim v) :=
  parseEnvLine_keyline m 'A' "GENT_RUNTIME_MODE".data v
    (by decide) (by decide) (by decide) (by decide)

theorem parseEnvLine_webhook (m : EnvMap) (v : JStr) :
    parseEnvLine m ("CHANNEL_WEBHOOK_SECURITY_ENABLED=".data ++ v)
      = envSet m KEY_WEBHOOK (jsTrim v) :=
  parseEnvLine_keyline m 'C' "HANNEL_WEBHOOK_SECURITY_ENABLED".data v
    (by decide) (by decide) (by decide) (by decide)

theorem parseEnvLine_comment (m : EnvMap) :
    parseEnvLine m "# GenXBot global environment".data = m := rfl

theorem parseEnvLine_blank (m : EnvMap) : parseEnvLine m [] = m := rfl

/-- Re-reading a rendered environment file: exactly the four known
keys, each bound to the trimmed rendered value. -/
theorem parseEnv_renderEnv (values : EnvMap) :
    parseEnv (renderEnv values)
      = envSet
          (envSet
            (envSet
              (envSet [] KEY_OPENAI
                (jsTrim (defaultStr (envGet values KEY_OPENAI) [])))
              KEY_ADMIN (jsTrim (defaultStr (envGet values KEY_ADMIN) [])))
            KEY_MODE
            (jsTrim (defaultStr (envGet values KEY_MODE) "single".data)))
          KEY_WEBHOOK
          (jsTrim (defaultStr (envGet values KEY_WEBHOOK) "false".data)) := by
  show List.foldl parseEnvLine [] (renderEnv values) = _
  rw [renderEnv]
  rw [List.foldl_cons, parseEnvLine_comment]
  rw [List.foldl_cons, parseEnvLine_openai]
  rw [List.foldl_cons, parseEnvLine_admin]
  rw [List.foldl_cons, parseEnvLine_mode]
  rw [List.foldl_cons, parseEnvLine_webhook]
  rw [List.foldl_cons, parseEnvLine_blank, List.foldl_nil]

theorem envGet_envSet_self (m : EnvMap) (k v : JStr) :
    envGet (envSet m k v) k = some v := by
  simp [envSet, envGet]

theorem envGet_filter_of_ne (m : EnvMap) (k k' : JStr) (h : ¬ k = k') :
    envGet (m.filter (fun p => decide (p.1 ≠ k'))) k = envGet m k := by
  induction m with
  | nil => rfl
  | cons a m ih =>
    by_cases ha : a.1 = k'
    · have : decide (a.1 ≠ k') = false := by simp [ha]
      rw [List.filter_cons, this]
      simp only [Bool.false_eq_true, if_false]
      have hak : ¬ a.1 = k := fun hx => h (hx ▸ ha ▸ rfl)
      cases a with
      | mk a1 a2 =>
        simp only [envGet, if_neg (by simpa using hak)]
        exact ih
    · have : decide (a.1 ≠ k') = true := by simpa using ha
      rw [List.filter_cons, this]
      simp only [if_true]
      cases a with
      | mk a1 a2 =>
        by_cases hak : a1 = k
        · simp [envGet, hak]
        · simp only [envGet, if_neg hak]
          exact ih

theorem envGet_envSet_of_ne (m : EnvMap) (k k' v : JStr) (h : ¬ k = k') :
    envGet (envSet m k' v) k = envGet m k := by
  unfold envSet
  have hk : ¬ k' = k := fun hx => h hx.symm
  rw [envGet, if_neg hk]
  exact envGet_filter_of_ne m k k' h

/-! ## Claim C1 — environment-file rewrite and unknown keys -/

/-- C1 counterexample: the unknown key `FOO` is present after parsing
the original file content, but rewriting the file (render then
re-parse, as `onboard` and `interactiveOnboard` do) loses it — the
rendered template only ever contains the four known keys. This refutes
the claim that an unknown key survives a rewrite verbatim. -/
theorem C1_counterexample :
    envGet (parseEnv ["FOO=bar".data]) "FOO".data = some "bar".data
    ∧ envGet (parseEnv (renderEnv (parseEnv ["FOO=bar".data]))) "FOO".data
        = none := by
  decide

/-- C1 (amended): rewriting the environment file via
`renderEnv`/`parseEnv` drops every key outside the four known template
keys — re-reading the rewritten file yields no binding for any unknown
key. -/
theorem C1_rewrite_drops_unknown_keys (values : EnvMap) (k : JStr)
    (hk : ¬ k ∈ knownKeys) :
    envGet (parseEnv (renderEnv values)) k = none := by
  rw [parseEnv_renderEnv]
  simp only [knownKeys, List.mem_cons, List.not_mem_nil, or_false] at hk
  push_neg at hk
  obtain ⟨h1, h2, h3, h4⟩ := hk
  rw [envGet_envSet_of_ne _ _ _ _ h4, envGet_envSet_of_ne _ _ _ _ h3,
    envGet_envSet_of_ne _ _ _ _ h2, envGet_envSet_of_ne _ _ _ _ h1]
  rfl

/-- C1 witness: instantiating the amended theorem at the unknown key
`FOO` and the empty value map. -/
theorem C1_witness :
    ¬ "FOO".data ∈ knownKeys
    ∧ envGet (parseEnv (renderEnv [])) "FOO".data = none :=
  ⟨by decide, C1_rewrite_drops_unknown_keys [] "FOO".data (by decide)⟩

/-! ## Claim C2 — probeHttp reachability -/

/-- C2 counterexample: a 500 response does arrive (its status code is
recorded), yet `probeHttp` reports `ok = false` — refuting the claim
that `ok = true` exactly when any response arrives and that a 5xx
counts as reachable. -/
theorem C2_counterexample :
    probeHttp (HttpOutcome.response 500) = ⟨false, some 500, none⟩ := by
  decide

/-- C2 (amended): `probeHttp` reports `ok = true` exactly for a
response with status in 200–499; a response outside that range (in
particular any 5xx) yields `ok = false` with the status code recorded
and no error field; the error field is set exactly when no response
arrives (connection failure or timeout). -/
theorem C2_probe_reachability (o : HttpOutcome) :
    ((probeHttp o).ok = true
      ↔ ∃ sc, o = HttpOutcome.response sc ∧ 200 ≤ sc ∧ sc < 500)
    ∧ ((probeHttp o).statusCode.isSome = true
      ↔ ∃ sc, o = HttpOutcome.response sc)
    ∧ ((probeHttp o).error.isSome = true
      ↔ ∀ sc, ¬ o = HttpOutcome.response sc) := by
  cases o with
  | response sc =>
    refine ⟨?_, ?_, ?_⟩ <;> simp [probeHttp, decide_eq_true_iff]
  | connError m =>
    refine ⟨?_, ?_, ?_⟩ <;> simp [probeHttp]
  | timeout =>
    refine ⟨?_, ?_, ?_⟩ <;> simp [probeHttp]

/-! ## Claim C10 — maskToken reveals at most 4+4 characters -/

/-- C10: on trimmed values, `maskToken` returns `(empty)` for the
empty value, `****` for length at most 8, and first-4 + `...` + last-4
otherwise; consequently two trimmed tokens of length above 8 that
agree on their first 4 and last 4 characters mask identically, so the
middle of a secret never reaches the console. -/
theorem C10_maskToken_masks (s t : JStr)
    (hs : jsTrim s = s) (ht : jsTrim t = t) :
    (s = [] → maskToken s = "(empty)".data)
    ∧ (s ≠ [] → s.length ≤ 8 → maskToken s = "****".data)
    ∧ (8 < s.length →
        maskToken s = s.take 4 ++ "...".data ++ s.drop (s.length - 4))
    ∧ (8 < s.length → 8 < t.length → s.take 4 = t.take 4 →
        s.drop (s.length - 4) = t.drop (t.length - 4) →
        maskToken s = maskToken t) := by
  have hmask : ∀ u : JStr, jsTrim u = u → 8 < u.length →
      maskToken u = u.take 4 ++ "...".data ++ u.drop (u.length - 4) := by
    intro u hu hlen
    have hne : ¬ u = [] := by
      intro hx
      rw [hx] at hlen
      simp at hlen
    have hgt : ¬ u.length ≤ 8 := Nat.not_le.mpr hlen
    simp only [maskToken, hu, if_neg hne, if_neg hgt]
  refine ⟨?_, ?_, ?_, ?_⟩
  · intro h
    rw [h]
    decide
  · intro h1 h2
    simp only [maskToken, hs, if_neg h1, if_pos h2]
  · intro h
    exact hmask s hs h
  · intro hls hlt htake hdrop
    rw [hmask s hs hls, hmask t ht hlt, htake, hdrop]

/-- C10 witness: two distinct 10/11-character tokens sharing their
first and last four characters mask to the same string. -/
theorem C10_witness :
    jsTrim "abcdXX1234".data = "abcdXX1234".data
    ∧ maskToken "abcdXX1234".data = maskToken "abcdYYY1234".data :=
  ⟨by decide,
    (C10_maskToken_masks "abcdXX1234".data "abcdYYY1234".data
        (by decide) (by decide)).2.2.2
      (by decide) (by decide) (by decide) (by decide)⟩

/-! ## Daemon lifecycle lemmas and claims C3, C4, C6 -/

theorem stopPoll_of_all_alive (pa : Nat → Bool) (h : ∀ k, pa k = true) :
    ∀ b i, stopPoll pa b i = (false, b) := by
  intro b
  induction b with
  | zero => intro i; rfl
  | succ n ih =>
    intro i
    simp only [stopPoll, h i, ih (i + 1)]
    simp

/-- Shared concrete fixture: a record with a positive recorded pid. -/
def metaFix : DaemonMeta := ⟨"cli".data, some 42, none, none⟩

/-- Shared concrete fixture: an invocation during which the recorded
pid answers alive at every observation and `SIGKILL` succeeds. -/
def envLiveFix : SysEnv :=
  ⟨fun _ => true, true, HttpOutcome.timeout, some "python3".data, 7, 9⟩

/-- Shared concrete fixture: an invocation during which the recorded
pid answers dead at every observation. -/
def envDeadFix : SysEnv :=
  ⟨fun _ => false, true, HttpOutcome.timeout, some "python3".data, 7, 9⟩

/-- C3: when the recorded pid is alive and ignores the graceful
signal (alive at every observation), `stopDaemon` attempts `SIGTERM`
before `SIGKILL`, performs exactly the 15 fixed 200 ms sleeps of the
polling budget, succeeds exactly when the `SIGKILL` attempt succeeds,
records `forced = true` (and the cleared record) on the escalated
success path, and the CLI `stop` exit code is non-zero exactly when
the process survived the escalation. -/
theorem C3_stop_escalation (meta : DaemonMeta) (env : SysEnv) (p : Nat)
    (hpid : meta.pid = some p) (hp : 0 < p)
    (halive : ∀ k, env.alive k = true) :
    (stopDaemon meta env).signals = [SigKind.term, SigKind.kill]
    ∧ (stopDaemon meta env).sleeps = List.replicate 15 200
    ∧ ((stopDaemon meta env).success = true ↔ env.sigkillOk = true)
    ∧ (env.sigkillOk = true →
        (stopDaemon meta env).snapshot.forced = some true
        ∧ (stopDaemon meta env).snapshot.event = "stop".data
        ∧ (stopDaemon meta env).metaWrite
            = some ⟨meta.manager, none, meta.startedAt, some env.now⟩)
    ∧ (stopExitCode meta env ≠ 0 ↔ env.sigkillOk = false) := by
  have hp0 : ¬ p = 0 := by omega
  have hpa : ∀ k, pidAliveCheck (some p) (env.alive k) = true := by
    intro k
    simp [pidAliveCheck, halive k, hp]
  have hpoll : stopPoll (fun k => pidAliveCheck (some p) (env.alive k)) 15 1
      = (false, 15) := stopPoll_of_all_alive _ hpa 15 1
  cases hks : env.sigkillOk with
  | true =>
    have hstop : stopDaemon meta env
        = ⟨true, [SigKind.term, SigKind.kill], List.replicate 15 200,
            some ⟨meta.manager, none, meta.startedAt, some env.now⟩,
            mkSnapshot ⟨meta.manager, none, meta.startedAt, some env.now⟩
              (env.alive 17) env.probe "stop".data (some true)⟩ := by
      simp only [stopDaemon, hpid, if_neg hp0, hpa 0, hpoll, hpa 16, hks]
      simp
    refine ⟨?_, ?_, ?_, ?_, ?_⟩
    · rw [hstop]
    · rw [hstop]
    · rw [hstop]
    · intro _
      rw [hstop]
      exact ⟨rfl, rfl, rfl⟩
    · rw [stopExitCode, hstop]
      simp
  | false =>
    have hstop : stopDaemon meta env
        = ⟨false, [SigKind.term, SigKind.kill], List.replicate 15 200, none,
            mkSnapshot meta (env.alive 17) env.probe
              "stop_failed".data none⟩ := by
      simp only [stopDaemon, hpid, if_neg hp0, hpa 0, hpoll, hpa 16, hks]
      simp
    refine ⟨?_, ?_, ?_, ?_, ?_⟩
    · rw [hstop]
    · rw [hstop]
    · rw [hstop]
    · intro hx
      exact absurd hx (by simp)
    · rw [stopExitCode, hstop]
      simp

/-- C3 witness: the escalation theorem instantiated on the live
fixture (pid 42, alive throughout, `SIGKILL` succeeds). -/
theorem C3_witness :
    0 < 42
    ∧ (stopDaemon metaFix envLiveFix).signals = [SigKind.term, SigKind.kill]
    ∧ (stopDaemon metaFix envLiveFix).sleeps = List.replicate 15 200
    ∧ (stopDaemon metaFix envLiveFix).snapshot.forced = some true := by
  have h := C3_stop_escalation metaFix envLiveFix 42 rfl (by decide)
    (fun _ => rfl)
  exact ⟨by decide, h.1, h.2.1, (h.2.2.2.1 rfl).1⟩

/-- C4 counterexample: with a recorded pid that is no longer alive,
`daemonStatus` derives `running = false` but performs no write of the
process-metadata record at all — refuting the claim that the status
operation rewrites the persisted record with the pid cleared. -/
theorem C4_counterexample :
    metaFix.pid = some 42
    ∧ (daemonStatus metaFix envDeadFix).running = false
    ∧ (daemonStatus metaFix envDeadFix).metaWrite = none := by
  decide

/-- C4 (amended): on a stale recorded pid, `stopDaemon` detects it and
rewrites the record with the pid cleared, reporting success; the
status operation detects it and reports the pid as cleared in its
derived view and snapshot, but leaves the persisted record
unchanged. -/
theorem C4_stale_pid_reconciliation (meta : DaemonMeta) (env : SysEnv)
    (p : Nat) (hpid : meta.pid = some p) (hp : 0 < p)
    (hdead : ∀ k, env.alive k = false) :
    ((stopDaemon meta env).success = true
      ∧ (stopDaemon meta env).metaWrite
          = some ⟨meta.manager, none, meta.startedAt, some env.now⟩
      ∧ (stopDaemon meta env).snapshot.event = "stop_clean_stale_pid".data
      ∧ (stopDaemon meta env).signals = [])
    ∧ ((daemonStatus meta env).running = false
      ∧ (daemonStatus meta env).pidView = none
      ∧ (daemonStatus meta env).snapshot.pidAlive = false
      ∧ (daemonStatus meta env).metaWrite = none) := by
  have hp0 : ¬ p = 0 := by omega
  have hpa : ∀ k, pidAliveCheck (some p) (env.alive k) = false := by
    intro k
    simp [pidAliveCheck, hdead k]
  constructor
  · have hstopS : stopDaemon meta env
        = ⟨true, [], [], some ⟨meta.manager, none, meta.startedAt, some env.now⟩,
            mkSnapshot ⟨meta.manager, none, meta.startedAt, some env.now⟩
              (env.alive 1) env.probe "stop_clean_stale_pid".data none⟩ := by
      simp only [stopDaemon, hpid, if_neg hp0, hpa 0]
      simp
    rw [hstopS]
    simp [mkSnapshot]
  · have hq0 : pidAliveCheck meta.pid (env.alive 0) = false := by
      rw [hpid]
      exact hpa 0
    have hq1 : pidAliveCheck meta.pid (env.alive 1) = false := by
      rw [hpid]
      exact hpa 1
    simp [daemonStatus, mkSnapshot, hq0, hq1]

/-- C4 witness: the amended theorem instantiated on the dead
fixture. -/
theorem C4_witness :
    0 < 42
    ∧ (stopDaemon metaFix envDeadFix).metaWrite
        = some ⟨"cli".data, none, none, some 9⟩
    ∧ (daemonStatus metaFix envDeadFix).metaWrite = none := by
  have h := C4_stale_pid_reconciliation metaFix envDeadFix 42 rfl (by decide)
    (fun _ => rfl)
  exact ⟨by decide, h.1.2.1, h.2.2.2.2⟩

/-- C6: when the recorded pid is alive, `startDaemon` takes the
already-running no-op path: it spawns nothing, exits normally,
performs no write of the process record (so the recorded pid is
unchanged), reports already-running, and still refreshes the health
snapshot with the `start_skipped_already_running` event. -/
theorem C6_start_idempotent (meta : DaemonMeta) (env : SysEnv) (p : Nat)
    (hpid : meta.pid = some p) (hp : 0 < p) (halive : env.alive 0 = true) :
    (startDaemon meta env).alreadyRunning = true
    ∧ (startDaemon meta env).spawned = none
    ∧ (startDaemon meta env).metaWrite = none
    ∧ (startDaemon meta env).exitCode = none
    ∧ (startDaemon meta env).snapshot
        = some (mkSnapshot meta (env.alive 1) env.probe
            "start_skipped_already_running".data none) := by
  have hpa : pidAliveCheck meta.pid (env.alive 0) = true := by
    rw [hpid]
    simp [pidAliveCheck, halive, hp]
  simp [startDaemon, hpa]

/-- C6 witness: the idempotence theorem instantiated on the live
fixture. -/
theorem C6_witness :
    0 < 42
    ∧ (startDaemon metaFix envLiveFix).spawned = none
    ∧ (startDaemon metaFix envLiveFix).metaWrite = none := by
  have h := C6_start_idempotent metaFix envLiveFix 42 rfl (by decide) rfl
  exact ⟨by decide, h.2.1, h.2.2.1⟩

/-! ## Claim C5 — doctor severity aggregation -/

/-- C5: a doctor run exits non-zero exactly when some check in the
battery has FAIL severity; with zero FAIL checks the exit code is 0
regardless of how many WARN checks there are. -/
theorem C5_doctor_exit_iff_fail (env : DoctorEnv) :
    doctorExitCode env ≠ 0 ↔ ∃ c ∈ doctorChecks env, c.level = Level.fail := by
  have hiff : 0 < doctorFailCount env
      ↔ ∃ c ∈ doctorChecks env, c.level = Level.fail := by
    rw [doctorFailCount, List.countP_pos_iff]
    simp
  rw [doctorExitCode]
  by_cases h : 0 < doctorFailCount env
  · simp only [if_pos h, ne_eq, one_ne_zero, not_false_iff, true_iff]
    exact hiff.mp h
  · simp only [if_neg h, ne_eq, not_true_eq_false, false_iff]
    intro hex
    exact h (hiff.mpr hex)

/-! ## Claim C7 — runtime-mode validation and onboard coercion -/

/-- The loaded values of a file whose mode is outside the closed
set. -/
def envValuesBad : EnvMap := parseEnv ["AGENT_RUNTIME_MODE=banana".data]

/-- A doctor host environment whose loaded env values carry the
invalid mode. -/
def denvBad : DoctorEnv :=
  ⟨some "v20".data, some "v10".data, some "3.11".data, some "23".data,
    some "0.23".data, true, "backend".data, "frontend".data, true, true,
    true, true, true, true, envValuesBad, true, true, HttpOutcome.timeout⟩

/-- C7 counterexample: on a file with `AGENT_RUNTIME_MODE=banana`,
validation does flag the error, but the `onboard` rewrite coerces the
mode to `single` before writing and validation of the rewritten values
is silent — refuting the claim that no operation that rewrites the
environment file silently coerces an invalid mode to a valid one. -/
theorem C7_counterexample :
    (validateEnv envValuesBad).errors = [ERR_MODE]
    ∧ envGet (parseEnv (renderEnv (onboardCoerce envValuesBad))) KEY_MODE
        = some "single".data
    ∧ (validateEnv (onboardCoerce envValuesBad)).errors = [] := by
  decide

/-- C7 (amended): for a present, non-empty mode value outside the
closed set, `validateEnv` reports exactly the mode error and `doctor`
carries a fail-severity `env_validation` check; however the `onboard`
rewrite coerces the invalid mode to `single` before writing, and
validation of the coerced values reports no error (the coercion is
silent). -/
theorem C7_mode_validation_and_coercion (values : EnvMap) (m : JStr)
    (denv : DoctorEnv)
    (hm : envGet values KEY_MODE = some m) (hmne : ¬ m = [])
    (hinv : ¬ jsToLower (jsTrim m) ∈ runtimeModes)
    (hne2 : ¬ jsToLower (jsTrim m) = [])
    (hdenv : denv.envValues = values) :
    (validateEnv values).errors = [ERR_MODE]
    ∧ mkCheck "env_validation".data Level.fail ERR_MODE ∈ doctorChecks denv
    ∧ envGet (onboardCoerce values) KEY_MODE = some "single".data
    ∧ (validateEnv (onboardCoerce values)).errors = [] := by
  have herr : (validateEnv values).errors = [ERR_MODE] := by
    simp only [validateEnv, hm, jsOrElse, if_neg hmne]
    rw [if_pos ⟨hne2, hinv⟩]
  have hco : envGet (onboardCoerce values) KEY_MODE = some "single".data := by
    simp only [onboardCoerce, hm, jsOrElse, if_neg hmne, if_neg hinv]
    rw [envGet_envSet_of_ne _ _ _ _ (by decide : ¬ KEY_MODE = KEY_WEBHOOK)]
    exact envGet_envSet_self _ _ _
  have hmem : mkCheck "env_validation".data Level.fail ERR_MODE
      ∈ doctorChecks denv := by
    simp only [doctorChecks]
    refine List.mem_append.mpr (Or.inl ?_)
    refine List.mem_append.mpr (Or.inr ?_)
    rw [hdenv, herr]
    simp
  have hval2 : (validateEnv (onboardCoerce values)).errors = [] := by
    simp only [validateEnv, hco, jsOrElse]
    simp
    decide
  exact ⟨herr, hmem, hco, hval2⟩

/-- C7 witness: the amended theorem instantiated on the
`AGENT_RUNTIME_MODE=banana` fixture. -/
theorem C7_witness :
    envGet envValuesBad KEY_MODE = some "banana".data
    ∧ (validateEnv envValuesBad).errors = [ERR_MODE]
    ∧ mkCheck "env_validation".data Level.fail ERR_MODE ∈ doctorChecks denvBad
    ∧ envGet (onboardCoerce envValuesBad) KEY_MODE = some "single".data := by
  have h := C7_mode_validation_and_coercion envValuesBad "banana".data denvBad
    (by decide) (by decide) (by decide) (by decide) rfl
  exact ⟨by decide, h.1, h.2.1, h.2.2.1⟩

/-! ## Claim C8 — persisted writes and atomicity -/

/-- C8 counterexample: the operation trace of `writeJsonFile` on the
process-metadata path contains no rename at all and writes the final
destination directly — it does not follow the write-to-temp-then-
rename pattern (nor any rename-based equivalent). -/
theorem C8_counterexample :
    writeJsonFile "~/.genxbot/daemon.meta.json".data "record".data
      = [FsOp.mkdirRec "~/.genxbot".data,
         FsOp.writeFile "~/.genxbot/daemon.meta.json".data "record".data]
    ∧ atomicTempRename
        (writeJsonFile "~/.genxbot/daemon.meta.json".data "record".data)
        "~/.genxbot/daemon.meta.json".data = false := by
  decide

/-- C8 (amended): every persisted-document write performed through
`writeJsonFile` is a single direct write to the destination (preceded
only by a directory creation), never a temp-then-rename; the readers
compensate by degrading a missing or unparsable record to the
fallback value. -/
theorem C8_direct_write_not_temp_rename (p c : JStr) :
    atomicTempRename (writeJsonFile p c) p = false
    ∧ (writeJsonFile p c).any (writesTo p) = true
    ∧ (∀ fb : DaemonMeta, readJsonFile FileState.corrupt fb = fb)
    ∧ (∀ fb : DaemonMeta, readJsonFile FileState.missing fb = fb) := by
  refine ⟨?_, ?_, fun _ => rfl, fun _ => rfl⟩
  · simp [atomicTempRename, writeJsonFile, renamesTo, writesTo]
  · simp [writeJsonFile, writesTo]

/-! ## Claim C9 — uninstall confirmation guard -/

/-- C9: `uninstall` without the confirmation flag exits with code 1
and performs no side effect whatsoever: no signal, no service
deregistration, no file write or removal. -/
theorem C9_uninstall_guard (meta : DaemonMeta) (env : SysEnv)
    (platform : JStr) (plistExists svcExists appHomeExists : Bool) :
    (uninstallCli false meta env platform plistExists svcExists
        appHomeExists).exitCode = some 1
    ∧ (uninstallCli false meta env platform plistExists svcExists
        appHomeExists).effects = [] := by
  exact ⟨rfl, rfl⟩

end GenXBot
